import Mathlib

/-!
Shallow embedding of the ds3502 Rust driver (src/src/lib.rs): a driver for
the DS3502 I2C digital potentiometer, with a blocking API and an async API.

The I2C bus is modelled by an `Oracle` that, given the transactions attempted
so far and the next write's address and payload, decides whether that write
succeeds (`none`) or fails with an embedded-hal error kind (`some k`).
Every attempted write is recorded in a log of `Txn`s, with a flag telling
whether the transport reported success; the errors the driver returns and the
state it keeps mirror the Rust code line by line.
-/

namespace DS3502

/-- `I2cAddr` from lib.rs: the four hardware-strappable I2C addresses. -/
inductive I2cAddr where
  | Default
  | Address0
  | Address1
  | Address01
deriving DecidableEq

/-- The `#[repr(u8)]` discriminants of `I2cAddr` (`I2cAddr as u8` in Rust). -/
def I2cAddr.toU8 : I2cAddr → Nat
  | .Default => 0x28
  | .Address0 => 0x29
  | .Address1 => 0x2a
  | .Address01 => 0x2b

/-- `ControlRegisterMode` from lib.rs. -/
inductive ControlRegisterMode where
  | WiperAndInitialValue
  | WiperOnly
deriving DecidableEq

/-- The `#[repr(u8)]` discriminants of `ControlRegisterMode`. -/
def ControlRegisterMode.toU8 : ControlRegisterMode → Nat
  | .WiperAndInitialValue => 0x00
  | .WiperOnly => 0x80

/-- `Config` from lib.rs. -/
structure Config where
  i2c_addr : I2cAddr
  mode : ControlRegisterMode
deriving DecidableEq

/-- `impl Default for Config` (lib.rs lines 113-120). -/
def Config.default : Config :=
  { i2c_addr := .Default, mode := .WiperOnly }

/-- `Ds3502Error` from lib.rs; the wrapped embedded-hal `ErrorKind` is
modelled as an opaque natural-number code. -/
inductive Ds3502Error where
  | InvalidWiperValue
  | I2cError (kind : Nat)
deriving DecidableEq

/-- `Wiper(u8)` from lib.rs; the `u8` is modelled as a `Nat` (the `u8` range
enters through `Wiper.tryFrom`, whose argument ranges over 0..=255). -/
structure Wiper where
  val : Nat
deriving DecidableEq

/-- `Wiper::inner` (lib.rs lines 176-182). -/
def Wiper.inner (w : Wiper) : Nat := w.val

/-- `impl TryFrom<u8> for Wiper` (lib.rs lines 190-200). -/
def Wiper.tryFrom (value : Nat) : Except Ds3502Error Wiper :=
  if value > 127 then .error .InvalidWiperValue else .ok ⟨value⟩

/-- One attempted I2C bus write: target address, payload bytes, and whether
the transport reported success. -/
structure Txn where
  addr : Nat
  bytes : List Nat
  ok : Bool
deriving DecidableEq

/-- A bus-transport behaviour: given the writes attempted so far and the next
write's address and payload, `none` means the write succeeds and `some k`
means it fails with embedded-hal error-kind code `k`. -/
abbrev Oracle := List Txn → Nat → List Nat → Option Nat

/-- The transport on which every write succeeds. -/
def allOk : Oracle := fun _ _ _ => none

/-- A transport that fails (with error-kind code `k`) exactly the `n`-th
attempted write (0-based), and lets every other write succeed. -/
def failNth (n k : Nat) : Oracle := fun log _ _ =>
  if log.length = n then some k else none

/-- The embedded-hal `I2c::write` primitive as seen through the oracle:
records the attempt in the log and reports the outcome the oracle chose,
wrapped the way `impl<E: I2cError> From<E> for Ds3502Error` wraps it. -/
def i2cWrite (oracle : Oracle) (log : List Txn) (addr : Nat) (bytes : List Nat) :
    Except Ds3502Error Unit × List Txn :=
  match oracle log addr bytes with
  | none => (.ok (), log ++ [⟨addr, bytes, true⟩])
  | some k => (.error (.I2cError k), log ++ [⟨addr, bytes, false⟩])

/-- `Ds3502<I2C>` from lib.rs: the I2C handle itself lives in the oracle/log
pair threaded through the operations, so the Lean state is just the config. -/
structure Ds3502 where
  config : Config
deriving DecidableEq

/-- `Ds3502::new` (lib.rs lines 240-242). -/
def Ds3502.new (config : Config) : Ds3502 := ⟨config⟩

/-- `Ds3502::mode` (lib.rs lines 245-247): pure read of the cached config. -/
def Ds3502.mode (d : Ds3502) : ControlRegisterMode := d.config.mode

/-- `Ds3502::set_mode` (blocking, lib.rs lines 271-276): the cached mode is
mutated first, then the `[0x02, mode]` write is attempted. -/
def set_mode (oracle : Oracle) (d : Ds3502) (mode : ControlRegisterMode)
    (log : List Txn) : Except Ds3502Error Unit × Ds3502 × List Txn :=
  let d2 : Ds3502 := { d with config := { d.config with mode := mode } }
  match i2cWrite oracle log d2.config.i2c_addr.toU8 [0x02, mode.toU8] with
  | (.ok _, log2) => (.ok (), d2, log2)
  | (.error e, log2) => (.error e, d2, log2)

/-- `Ds3502::write_wiper` (blocking, lib.rs lines 293-297). -/
def write_wiper (oracle : Oracle) (d : Ds3502) (value : Wiper)
    (log : List Txn) : Except Ds3502Error Unit × Ds3502 × List Txn :=
  match i2cWrite oracle log d.config.i2c_addr.toU8 [0x00, value.val] with
  | (.ok _, log2) => (.ok (), d, log2)
  | (.error e, log2) => (.error e, d, log2)

/-- `Ds3502::write_and_save_wiper` (blocking, lib.rs lines 282-287): the
three-step sequence with `?`-style early return. -/
def write_and_save_wiper (oracle : Oracle) (d : Ds3502) (value : Wiper)
    (log : List Txn) : Except Ds3502Error Unit × Ds3502 × List Txn :=
  match set_mode oracle d .WiperAndInitialValue log with
  | (.error e, d1, log1) => (.error e, d1, log1)
  | (.ok _, d1, log1) =>
    match write_wiper oracle d1 value log1 with
    | (.error e, d2, log2) => (.error e, d2, log2)
    | (.ok _, d2, log2) =>
      match set_mode oracle d2 .WiperOnly log2 with
      | (.error e, d3, log3) => (.error e, d3, log3)
      | (.ok _, d3, log3) => (.ok (), d3, log3)

/-- `Ds3502::blocking_init` (lib.rs lines 257-261). -/
def blocking_init (oracle : Oracle) (config : Config) (log : List Txn) :
    Except Ds3502Error Ds3502 × List Txn :=
  let pot := Ds3502.new config
  match set_mode oracle pot config.mode log with
  | (.ok _, pot2, log2) => (.ok pot2, log2)
  | (.error e, _, log2) => (.error e, log2)

/-- `Ds3502::async_set_mode` (lib.rs lines 342-347): unlike the blocking
`set_mode`, it does NOT update the cached `config.mode`. -/
def async_set_mode (oracle : Oracle) (d : Ds3502) (mode : ControlRegisterMode)
    (log : List Txn) : Except Ds3502Error Unit × Ds3502 × List Txn :=
  match i2cWrite oracle log d.config.i2c_addr.toU8 [0x02, mode.toU8] with
  | (.ok _, log2) => (.ok (), d, log2)
  | (.error e, log2) => (.error e, d, log2)

/-- `Ds3502::async_write_wiper` (lib.rs lines 317-322). -/
def async_write_wiper (oracle : Oracle) (d : Ds3502) (value : Wiper)
    (log : List Txn) : Except Ds3502Error Unit × Ds3502 × List Txn :=
  match i2cWrite oracle log d.config.i2c_addr.toU8 [0x00, value.val] with
  | (.ok _, log2) => (.ok (), d, log2)
  | (.error e, log2) => (.error e, d, log2)

/-- `Ds3502::async_write_and_save_wiper` (lib.rs lines 328-334). -/
def async_write_and_save_wiper (oracle : Oracle) (d : Ds3502) (value : Wiper)
    (log : List Txn) : Except Ds3502Error Unit × Ds3502 × List Txn :=
  match async_set_mode oracle d .WiperAndInitialValue log with
  | (.error e, d1, log1) => (.error e, d1, log1)
  | (.ok _, d1, log1) =>
    match async_write_wiper oracle d1 value log1 with
    | (.error e, d2, log2) => (.error e, d2, log2)
    | (.ok _, d2, log2) =>
      match async_set_mode oracle d2 .WiperOnly log2 with
      | (.error e, d3, log3) => (.error e, d3, log3)
      | (.ok _, d3, log3) => (.ok (), d3, log3)

/-- `Ds3502::async_init` (lib.rs lines 307-311). -/
def async_init (oracle : Oracle) (config : Config) (log : List Txn) :
    Except Ds3502Error Ds3502 × List Txn :=
  let pot := Ds3502.new config
  match async_set_mode oracle pot config.mode log with
  | (.ok _, pot2, log2) => (.ok pot2, log2)
  | (.error e, _, log2) => (.error e, log2)

/-- The operation sequence of `run_blocking` in the test module of lib.rs
(lines 361-368): default init, `write_wiper(88)`, then
`write_and_save_wiper(23)`, each `?`-propagating its error. -/
def run_blocking (oracle : Oracle) : Except Ds3502Error Unit × List Txn :=
  match blocking_init oracle Config.default [] with
  | (.error e, log) => (.error e, log)
  | (.ok d, log) =>
    match Wiper.tryFrom 88 with
    | .error e => (.error e, log)
    | .ok wv =>
      match write_wiper oracle d wv log with
      | (.error e, _, log2) => (.error e, log2)
      | (.ok _, d2, log2) =>
        match Wiper.tryFrom 23 with
        | .error e => (.error e, log2)
        | .ok wv2 =>
          match write_and_save_wiper oracle d2 wv2 log2 with
          | (.error e, _, log3) => (.error e, log3)
          | (.ok _, _, log3) => (.ok (), log3)

/-- The operation sequence of `run_async` in the test module of lib.rs
(lines 370-377): the same three operations through the async API. -/
def run_async (oracle : Oracle) : Except Ds3502Error Unit × List Txn :=
  match async_init oracle Config.default [] with
  | (.error e, log) => (.error e, log)
  | (.ok d, log) =>
    match Wiper.tryFrom 88 with
    | .error e => (.error e, log)
    | .ok wv =>
      match async_write_wiper oracle d wv log with
      | (.error e, _, log2) => (.error e, log2)
      | (.ok _, d2, log2) =>
        match Wiper.tryFrom 23 with
        | .error e => (.error e, log2)
        | .ok wv2 =>
          match async_write_and_save_wiper oracle d2 wv2 log2 with
          | (.error e, _, log3) => (.error e, log3)
          | (.ok _, _, log3) => (.ok (), log3)

/-- Decodes a two-byte payload as a control-register write, following the
wire-format table of the DS3502 protocol: `[0x02, 0x00]` selects
wiper-and-initial-value mode and `[0x02, 0x80]` selects wiper-only mode;
anything else does not address the control register. -/
def modeOfPayload : List Nat → Option ControlRegisterMode
  | [r, v] =>
    if r = 2 then
      if v = 0 then some .WiperAndInitialValue
      else if v = 0x80 then some .WiperOnly
      else none
    else none
  | _ => none

/-- Modelled from the spec: the device side of the protocol, which is not
part of the driver crate. A successful control-register write `[0x02, m]`
establishes persistence mode `m` on the device; a failed write, or a write
to another register, leaves the device's mode unchanged. -/
def applyTxn (m : ControlRegisterMode) (t : Txn) : ControlRegisterMode :=
  if t.ok then
    match modeOfPayload t.bytes with
    | some m2 => m2
    | none => m
  else m

/-- Modelled from the spec: the device's actual persistence mode after the
logged bus traffic — the mode established by the most recent successful
`[0x02, m]` write, or the power-on mode `m` if there has been none. -/
def deviceMode (m : ControlRegisterMode) (log : List Txn) : ControlRegisterMode :=
  log.foldl applyTxn m

/-- The persistence mode of the latest control-register write the driver
issued on the bus (whether or not the transport reported success), if any. -/
def lastCommandedMode : List Txn → Option ControlRegisterMode
  | [] => none
  | t :: ts =>
    match lastCommandedMode ts with
    | some m => some m
    | none => modeOfPayload t.bytes

/-- One public driver operation after initialization (the public surface of
the crate besides `mode()`, which does not touch the bus). -/
inductive Op where
  | writeWiper (w : Wiper)
  | writeAndSave (w : Wiper)

/-- Performs one operation through the blocking API, keeping the driver and
log it leaves behind whether or not the operation succeeded. -/
def runOp (oracle : Oracle) (d : Ds3502) (log : List Txn) :
    Op → Ds3502 × List Txn
  | .writeWiper w =>
    match write_wiper oracle d w log with
    | (_, d2, log2) => (d2, log2)
  | .writeAndSave w =>
    match write_and_save_wiper oracle d w log with
    | (_, d2, log2) => (d2, log2)

/-- Performs a sequence of operations through the blocking API. -/
def runOps (oracle : Oracle) (d : Ds3502) (log : List Txn) :
    List Op → Ds3502 × List Txn
  | [] => (d, log)
  | op :: ops =>
    match runOp oracle d log op with
    | (d2, log2) => runOps oracle d2 log2 ops

/-- Performs one operation through the async API. -/
def runAsyncOp (oracle : Oracle) (d : Ds3502) (log : List Txn) :
    Op → Ds3502 × List Txn
  | .writeWiper w =>
    match async_write_wiper oracle d w log with
    | (_, d2, log2) => (d2, log2)
  | .writeAndSave w =>
    match async_write_and_save_wiper oracle d w log with
    | (_, d2, log2) => (d2, log2)

/-- Performs a sequence of operations through the async API. -/
def runAsyncOps (oracle : Oracle) (d : Ds3502) (log : List Txn) :
    List Op → Ds3502 × List Txn
  | [] => (d, log)
  | op :: ops =>
    match runAsyncOp oracle d log op with
    | (d2, log2) => runAsyncOps oracle d2 log2 ops

/-! ## Helper lemmas -/

theorem tryFrom_ok_val {p : Nat} {w : Wiper} (h : Wiper.tryFrom p = .ok w) :
    w.val = p := by
  unfold Wiper.tryFrom at h
  split at h
  · exact Except.noConfusion h
  · injection h with h2
    exact (congrArg Wiper.val h2).symm

theorem tryFrom_ok_le {p : Nat} {w : Wiper} (h : Wiper.tryFrom p = .ok w) :
    p ≤ 127 := by
  unfold Wiper.tryFrom at h
  split at h
  · exact Except.noConfusion h
  · omega

theorem set_mode_oracle_none {oracle : Oracle} {d : Ds3502}
    {m : ControlRegisterMode} {log : List Txn}
    (h : oracle log d.config.i2c_addr.toU8 [0x02, m.toU8] = none) :
    set_mode oracle d m log =
      (.ok (), ⟨⟨d.config.i2c_addr, m⟩⟩,
       log ++ [⟨d.config.i2c_addr.toU8, [0x02, m.toU8], true⟩]) := by
  simp [set_mode, i2cWrite, h]

theorem set_mode_oracle_some {oracle : Oracle} {d : Ds3502}
    {m : ControlRegisterMode} {log : List Txn} {k : Nat}
    (h : oracle log d.config.i2c_addr.toU8 [0x02, m.toU8] = some k) :
    set_mode oracle d m log =
      (.error (.I2cError k), ⟨⟨d.config.i2c_addr, m⟩⟩,
       log ++ [⟨d.config.i2c_addr.toU8, [0x02, m.toU8], false⟩]) := by
  simp [set_mode, i2cWrite, h]

theorem write_wiper_oracle_none {oracle : Oracle} {d : Ds3502} {w : Wiper}
    {log : List Txn}
    (h : oracle log d.config.i2c_addr.toU8 [0x00, w.val] = none) :
    write_wiper oracle d w log =
      (.ok (), d, log ++ [⟨d.config.i2c_addr.toU8, [0x00, w.val], true⟩]) := by
  simp [write_wiper, i2cWrite, h]

theorem write_wiper_oracle_some {oracle : Oracle} {d : Ds3502} {w : Wiper}
    {log : List Txn} {k : Nat}
    (h : oracle log d.config.i2c_addr.toU8 [0x00, w.val] = some k) :
    write_wiper oracle d w log =
      (.error (.I2cError k), d,
       log ++ [⟨d.config.i2c_addr.toU8, [0x00, w.val], false⟩]) := by
  simp [write_wiper, i2cWrite, h]

theorem async_set_mode_oracle_none {oracle : Oracle} {d : Ds3502}
    {m : ControlRegisterMode} {log : List Txn}
    (h : oracle log d.config.i2c_addr.toU8 [0x02, m.toU8] = none) :
    async_set_mode oracle d m log =
      (.ok (), d, log ++ [⟨d.config.i2c_addr.toU8, [0x02, m.toU8], true⟩]) := by
  simp [async_set_mode, i2cWrite, h]

theorem async_set_mode_oracle_some {oracle : Oracle} {d : Ds3502}
    {m : ControlRegisterMode} {log : List Txn} {k : Nat}
    (h : oracle log d.config.i2c_addr.toU8 [0x02, m.toU8] = some k) :
    async_set_mode oracle d m log =
      (.error (.I2cError k), d,
       log ++ [⟨d.config.i2c_addr.toU8, [0x02, m.toU8], false⟩]) := by
  simp [async_set_mode, i2cWrite, h]

theorem async_write_wiper_oracle_none {oracle : Oracle} {d : Ds3502} {w : Wiper}
    {log : List Txn}
    (h : oracle log d.config.i2c_addr.toU8 [0x00, w.val] = none) :
    async_write_wiper oracle d w log =
      (.ok (), d, log ++ [⟨d.config.i2c_addr.toU8, [0x00, w.val], true⟩]) := by
  simp [async_write_wiper, i2cWrite, h]

theorem async_write_wiper_oracle_some {oracle : Oracle} {d : Ds3502} {w : Wiper}
    {log : List Txn} {k : Nat}
    (h : oracle log d.config.i2c_addr.toU8 [0x00, w.val] = some k) :
    async_write_wiper oracle d w log =
      (.error (.I2cError k), d,
       log ++ [⟨d.config.i2c_addr.toU8, [0x00, w.val], false⟩]) := by
  simp [async_write_wiper, i2cWrite, h]

theorem blocking_init_ok_driver {oracle : Oracle} {cfg : Config}
    {log log2 : List Txn} {d : Ds3502}
    (h : blocking_init oracle cfg log = (.ok d, log2)) : d = ⟨cfg⟩ := by
  simp only [blocking_init, Ds3502.new] at h
  cases ho : oracle log cfg.i2c_addr.toU8 [0x02, cfg.mode.toU8] with
  | none =>
    rw [@set_mode_oracle_none oracle ⟨cfg⟩ cfg.mode log ho] at h
    simp at h
    exact h.1.symm
  | some k =>
    rw [@set_mode_oracle_some oracle ⟨cfg⟩ cfg.mode log k ho] at h
    simp at h

theorem async_init_ok_driver {oracle : Oracle} {cfg : Config}
    {log log2 : List Txn} {d : Ds3502}
    (h : async_init oracle cfg log = (.ok d, log2)) : d = ⟨cfg⟩ := by
  simp only [async_init, Ds3502.new] at h
  cases ho : oracle log cfg.i2c_addr.toU8 [0x02, cfg.mode.toU8] with
  | none =>
    rw [@async_set_mode_oracle_none oracle ⟨cfg⟩ cfg.mode log ho] at h
    simp at h
    exact h.1.symm
  | some k =>
    rw [@async_set_mode_oracle_some oracle ⟨cfg⟩ cfg.mode log k ho] at h
    simp at h

/-! ## Claim theorems -/

/-- C6: for every integer `v` in [0,127], `Wiper::try_from(v)` succeeds and
the stored magnitude (`inner`) equals `v` (never clamped); for every `v` in
[128,255] it fails with `InvalidWiperValue`. The constructor is a pure
function of `v` alone — it takes no transport, so no bus access occurs —
and every successfully built `Wiper` carries a value in [0,127]. -/
theorem wiper_tryFrom_validated_gate (v : Nat) (hv : v ≤ 255) :
    (v ≤ 127 → Wiper.tryFrom v = .ok ⟨v⟩ ∧ (Wiper.mk v).inner = v) ∧
    (128 ≤ v → Wiper.tryFrom v = .error .InvalidWiperValue) ∧
    (∀ w : Wiper, Wiper.tryFrom v = .ok w → w.inner = v ∧ w.inner ≤ 127) := by
  refine ⟨?_, ?_, ?_⟩
  · intro h
    have hn : ¬ v > 127 := by omega
    exact ⟨by simp [Wiper.tryFrom, hn], rfl⟩
  · intro h
    have hg : v > 127 := by omega
    simp [Wiper.tryFrom, hg]
  · intro w hw
    have h1 := tryFrom_ok_val hw
    have h2 := tryFrom_ok_le hw
    refine ⟨?_, ?_⟩ <;> simp only [Wiper.inner] <;> omega

/-- Witness for C6 at v = 23 (accepted, inner = 23) and v = 200 (rejected). -/
theorem wiper_tryFrom_validated_gate_witness :
    Wiper.tryFrom 23 = .ok ⟨23⟩ ∧
    Wiper.tryFrom 200 = .error .InvalidWiperValue :=
  ⟨((wiper_tryFrom_validated_gate 23 (by norm_num)).1 (by norm_num)).1,
   (wiper_tryFrom_validated_gate 200 (by norm_num)).2.1 (by norm_num)⟩

/-- C7: initialization (`blocking_init` or `async_init`) with configuration
`cfg` issues exactly one bus write, `[0x02, cfg.mode]`, to `cfg`'s bus
address; with the default configuration this is `[0x02, 0x80]` to address
0x28. On success it returns the driver, and on bus failure a wrapped
transport error. -/
theorem init_single_mode_write (oracle : Oracle) (cfg : Config) (log : List Txn) :
    (oracle log cfg.i2c_addr.toU8 [0x02, cfg.mode.toU8] = none →
      blocking_init oracle cfg log =
        (.ok ⟨cfg⟩, log ++ [⟨cfg.i2c_addr.toU8, [0x02, cfg.mode.toU8], true⟩]) ∧
      async_init oracle cfg log =
        (.ok ⟨cfg⟩, log ++ [⟨cfg.i2c_addr.toU8, [0x02, cfg.mode.toU8], true⟩])) ∧
    (∀ k, oracle log cfg.i2c_addr.toU8 [0x02, cfg.mode.toU8] = some k →
      blocking_init oracle cfg log =
        (.error (.I2cError k),
         log ++ [⟨cfg.i2c_addr.toU8, [0x02, cfg.mode.toU8], false⟩]) ∧
      async_init oracle cfg log =
        (.error (.I2cError k),
         log ++ [⟨cfg.i2c_addr.toU8, [0x02, cfg.mode.toU8], false⟩])) ∧
    Config.default.i2c_addr.toU8 = 0x28 ∧ Config.default.mode.toU8 = 0x80 := by
  refine ⟨?_, ?_, rfl, rfl⟩
  · intro h
    constructor <;>
      simp [blocking_init, async_init, Ds3502.new, set_mode, async_set_mode,
        i2cWrite, h]
  · intro k h
    constructor <;>
      simp [blocking_init, async_init, Ds3502.new, set_mode, async_set_mode,
        i2cWrite, h]

/-- Witness for C7: default-config init on an all-success transport writes
`[0x02, 0x80]` to 0x28 and returns the driver; on a transport whose first
write fails with kind 7 it returns the wrapped error. -/
theorem init_single_mode_write_witness :
    blocking_init allOk Config.default [] =
      (.ok ⟨Config.default⟩, [⟨0x28, [0x02, 0x80], true⟩]) ∧
    blocking_init (failNth 0 7) Config.default [] =
      (.error (.I2cError 7), [⟨0x28, [0x02, 0x80], false⟩]) := by
  constructor
  · have h := ((init_single_mode_write allOk Config.default []).1 rfl).1
    simpa [Config.default, I2cAddr.toU8, ControlRegisterMode.toU8] using h
  · have h := ((init_single_mode_write (failNth 0 7) Config.default []).2.1 7 rfl).1
    simpa [Config.default, I2cAddr.toU8, ControlRegisterMode.toU8] using h

/-- C8: for every valid wiper position `p` (accepted by `Wiper::try_from`),
`write_wiper`/`async_write_wiper` issues exactly one bus write `[0x00, p]` to
the configured address, returns unit on success and the wrapped transport
failure when the write fails, and returns the driver state unchanged (so
`mode()` is unchanged — the mode register is never written). -/
theorem write_wiper_single_write (oracle : Oracle) (d : Ds3502) (p : Nat)
    (w : Wiper) (log : List Txn) (hw : Wiper.tryFrom p = .ok w) :
    (oracle log d.config.i2c_addr.toU8 [0x00, p] = none →
      write_wiper oracle d w log =
        (.ok (), d, log ++ [⟨d.config.i2c_addr.toU8, [0x00, p], true⟩]) ∧
      async_write_wiper oracle d w log =
        (.ok (), d, log ++ [⟨d.config.i2c_addr.toU8, [0x00, p], true⟩])) ∧
    (∀ k, oracle log d.config.i2c_addr.toU8 [0x00, p] = some k →
      write_wiper oracle d w log =
        (.error (.I2cError k), d,
         log ++ [⟨d.config.i2c_addr.toU8, [0x00, p], false⟩]) ∧
      async_write_wiper oracle d w log =
        (.error (.I2cError k), d,
         log ++ [⟨d.config.i2c_addr.toU8, [0x00, p], false⟩])) := by
  have hv := tryFrom_ok_val hw
  subst hv
  refine ⟨?_, ?_⟩
  · intro h
    exact ⟨write_wiper_oracle_none h, async_write_wiper_oracle_none h⟩
  · intro k h
    exact ⟨write_wiper_oracle_some h, async_write_wiper_oracle_some h⟩

/-- Witness for C8 at p = 88 on the default-config driver, on an all-success
transport and on one whose first write fails with kind 3. -/
theorem write_wiper_single_write_witness :
    write_wiper allOk ⟨Config.default⟩ ⟨88⟩ [] =
      (.ok (), ⟨Config.default⟩, [⟨0x28, [0x00, 88], true⟩]) ∧
    write_wiper (failNth 0 3) ⟨Config.default⟩ ⟨88⟩ [] =
      (.error (.I2cError 3), ⟨Config.default⟩, [⟨0x28, [0x00, 88], false⟩]) := by
  constructor
  · have h :=
      ((write_wiper_single_write allOk ⟨Config.default⟩ 88 ⟨88⟩ [] rfl).1 rfl).1
    simpa [Config.default, I2cAddr.toU8] using h
  · have h :=
      ((write_wiper_single_write (failNth 0 3) ⟨Config.default⟩ 88 ⟨88⟩ []
        rfl).2 3 rfl).1
    simpa [Config.default, I2cAddr.toU8] using h

/-! ## Shape lemmas for the three-step write-and-save sequence -/

theorem write_and_save_fail1 {oracle : Oracle} {d : Ds3502} {w : Wiper}
    {log : List Txn} {k : Nat}
    (h1 : oracle log d.config.i2c_addr.toU8 [0x02, 0x00] = some k) :
    write_and_save_wiper oracle d w log =
      (.error (.I2cError k), ⟨⟨d.config.i2c_addr, .WiperAndInitialValue⟩⟩,
       log ++ [⟨d.config.i2c_addr.toU8, [0x02, 0x00], false⟩]) := by
  simp [write_and_save_wiper, set_mode, i2cWrite, ControlRegisterMode.toU8, h1]

theorem write_and_save_fail2 {oracle : Oracle} {d : Ds3502} {w : Wiper}
    {log : List Txn} {k : Nat}
    (h1 : oracle log d.config.i2c_addr.toU8 [0x02, 0x00] = none)
    (h2 : oracle (log ++ [⟨d.config.i2c_addr.toU8, [0x02, 0x00], true⟩])
            d.config.i2c_addr.toU8 [0x00, w.val] = some k) :
    write_and_save_wiper oracle d w log =
      (.error (.I2cError k), ⟨⟨d.config.i2c_addr, .WiperAndInitialValue⟩⟩,
       log ++ [⟨d.config.i2c_addr.toU8, [0x02, 0x00], true⟩,
               ⟨d.config.i2c_addr.toU8, [0x00, w.val], false⟩]) := by
  simp [write_and_save_wiper, set_mode, write_wiper, i2cWrite,
    ControlRegisterMode.toU8, h1, h2]

theorem write_and_save_fail3 {oracle : Oracle} {d : Ds3502} {w : Wiper}
    {log : List Txn} {k : Nat}
    (h1 : oracle log d.config.i2c_addr.toU8 [0x02, 0x00] = none)
    (h2 : oracle (log ++ [⟨d.config.i2c_addr.toU8, [0x02, 0x00], true⟩])
            d.config.i2c_addr.toU8 [0x00, w.val] = none)
    (h3 : oracle (log ++ [⟨d.config.i2c_addr.toU8, [0x02, 0x00], true⟩,
                          ⟨d.config.i2c_addr.toU8, [0x00, w.val], true⟩])
            d.config.i2c_addr.toU8 [0x02, 0x80] = some k) :
    write_and_save_wiper oracle d w log =
      (.error (.I2cError k), ⟨⟨d.config.i2c_addr, .WiperOnly⟩⟩,
       log ++ [⟨d.config.i2c_addr.toU8, [0x02, 0x00], true⟩,
               ⟨d.config.i2c_addr.toU8, [0x00, w.val], true⟩,
               ⟨d.config.i2c_addr.toU8, [0x02, 0x80], false⟩]) := by
  simp [write_and_save_wiper, set_mode, write_wiper, i2cWrite,
    ControlRegisterMode.toU8, h1, h2, h3]

theorem write_and_save_all_ok {oracle : Oracle} {d : Ds3502} {w : Wiper}
    {log : List Txn}
    (h1 : oracle log d.config.i2c_addr.toU8 [0x02, 0x00] = none)
    (h2 : oracle (log ++ [⟨d.config.i2c_addr.toU8, [0x02, 0x00], true⟩])
            d.config.i2c_addr.toU8 [0x00, w.val] = none)
    (h3 : oracle (log ++ [⟨d.config.i2c_addr.toU8, [0x02, 0x00], true⟩,
                          ⟨d.config.i2c_addr.toU8, [0x00, w.val], true⟩])
            d.config.i2c_addr.toU8 [0x02, 0x80] = none) :
    write_and_save_wiper oracle d w log =
      (.ok (), ⟨⟨d.config.i2c_addr, .WiperOnly⟩⟩,
       log ++ [⟨d.config.i2c_addr.toU8, [0x02, 0x00], true⟩,
               ⟨d.config.i2c_addr.toU8, [0x00, w.val], true⟩,
               ⟨d.config.i2c_addr.toU8, [0x02, 0x80], true⟩]) := by
  simp [write_and_save_wiper, set_mode, write_wiper, i2cWrite,
    ControlRegisterMode.toU8, h1, h2, h3]

/-- C1: for every valid wiper position `p`, a successful
`write_and_save_wiper(p)` after (default) initialization issues exactly
three bus writes to the configured address, in order `[0x02, 0x00]`,
`[0x00, p]`, `[0x02, 0x80]`, and `mode()` is `WiperOnly` both before and
after the call. -/
theorem writeAndSaveWiper_three_writes (oracle : Oracle) (p : Nat) (w : Wiper)
    (d : Ds3502) (log1 : List Txn)
    (hw : Wiper.tryFrom p = .ok w)
    (hinit : blocking_init oracle Config.default [] = (.ok d, log1)) :
    d.mode = .WiperOnly ∧
    (∀ res d2 log2,
      write_and_save_wiper oracle d w log1 = (res, d2, log2) → res = .ok () →
      d2.mode = .WiperOnly ∧
      log2 = log1 ++ [⟨0x28, [0x02, 0x00], true⟩, ⟨0x28, [0x00, p], true⟩,
                      ⟨0x28, [0x02, 0x80], true⟩]) := by
  have hd := blocking_init_ok_driver hinit
  subst hd
  have hv := tryFrom_ok_val hw
  subst hv
  refine ⟨rfl, ?_⟩
  intro res d2 log2 hrun hres
  subst hres
  cases h1 : oracle log1
      (⟨Config.default⟩ : Ds3502).config.i2c_addr.toU8 [0x02, 0x00] with
  | some k =>
    rw [write_and_save_fail1 h1] at hrun
    simp at hrun
  | none =>
    cases h2 : oracle
        (log1 ++ [⟨(⟨Config.default⟩ : Ds3502).config.i2c_addr.toU8,
                   [0x02, 0x00], true⟩])
        (⟨Config.default⟩ : Ds3502).config.i2c_addr.toU8 [0x00, w.val] with
    | some k =>
      rw [write_and_save_fail2 h1 h2] at hrun
      simp at hrun
    | none =>
      cases h3 : oracle
          (log1 ++ [⟨(⟨Config.default⟩ : Ds3502).config.i2c_addr.toU8,
                     [0x02, 0x00], true⟩,
                    ⟨(⟨Config.default⟩ : Ds3502).config.i2c_addr.toU8,
                     [0x00, w.val], true⟩])
          (⟨Config.default⟩ : Ds3502).config.i2c_addr.toU8 [0x02, 0x80] with
      | some k =>
        rw [write_and_save_fail3 h1 h2 h3] at hrun
        simp at hrun
      | none =>
        rw [write_and_save_all_ok h1 h2 h3] at hrun
        simp only [Prod.mk.injEq] at hrun
        obtain ⟨_, hdd, hl⟩ := hrun
        constructor
        · rw [← hdd]
          rfl
        · exact hl.symm

/-- Witness for C1 at p = 23 on an all-success transport after a
default-config init. -/
theorem writeAndSaveWiper_three_writes_witness :
    (⟨Config.default⟩ : Ds3502).mode = .WiperOnly ∧
    (⟨⟨I2cAddr.Default, ControlRegisterMode.WiperOnly⟩⟩ : Ds3502).mode =
      .WiperOnly ∧
    ([⟨0x28, [0x02, 0x80], true⟩, ⟨0x28, [0x02, 0x00], true⟩,
      ⟨0x28, [0x00, 23], true⟩, ⟨0x28, [0x02, 0x80], true⟩] : List Txn) =
    ([⟨0x28, [0x02, 0x80], true⟩] : List Txn) ++
      [⟨0x28, [0x02, 0x00], true⟩, ⟨0x28, [0x00, 23], true⟩,
       ⟨0x28, [0x02, 0x80], true⟩] := by
  have h := writeAndSaveWiper_three_writes allOk 23 ⟨23⟩ ⟨Config.default⟩
    [⟨0x28, [0x02, 0x80], true⟩] rfl rfl
  have h2 := h.2 (.ok ()) ⟨⟨I2cAddr.Default, .WiperOnly⟩⟩
    [⟨0x28, [0x02, 0x80], true⟩, ⟨0x28, [0x02, 0x00], true⟩,
     ⟨0x28, [0x00, 23], true⟩, ⟨0x28, [0x02, 0x80], true⟩] rfl rfl
  exact ⟨h.1, h2.1, h2.2⟩

/-- C2: if the second bus write of `write_and_save_wiper` (the wiper write
`[0x00, p]`) fails, the call returns the wrapped transport failure
immediately and the transport sees exactly two writes for that call — the
mode-restoration write `[0x02, 0x80]` is never issued. -/
theorem writeAndSaveWiper_second_write_fails (oracle : Oracle) (d : Ds3502)
    (w : Wiper) (log : List Txn) (k : Nat)
    (h1 : oracle log d.config.i2c_addr.toU8 [0x02, 0x00] = none)
    (h2 : oracle (log ++ [⟨d.config.i2c_addr.toU8, [0x02, 0x00], true⟩])
            d.config.i2c_addr.toU8 [0x00, w.val] = some k) :
    (write_and_save_wiper oracle d w log).1 = .error (.I2cError k) ∧
    (write_and_save_wiper oracle d w log).2.2 =
      log ++ [⟨d.config.i2c_addr.toU8, [0x02, 0x00], true⟩,
              ⟨d.config.i2c_addr.toU8, [0x00, w.val], false⟩] := by
  rw [write_and_save_fail2 h1 h2]
  exact ⟨rfl, rfl⟩

/-- Witness for C2: with wiper 23 on the default-config driver and a
transport failing the second attempted write with kind 5, the call errors
and the log gains exactly two entries. -/
theorem writeAndSaveWiper_second_write_fails_witness :
    (write_and_save_wiper (failNth 1 5) ⟨Config.default⟩ ⟨23⟩ []).1 =
      .error (.I2cError 5) ∧
    (write_and_save_wiper (failNth 1 5) ⟨Config.default⟩ ⟨23⟩ []).2.2 =
      [⟨0x28, [0x02, 0x00], true⟩, ⟨0x28, [0x00, 23], false⟩] := by
  have h := writeAndSaveWiper_second_write_fails (failNth 1 5)
    ⟨Config.default⟩ ⟨23⟩ [] 5 rfl rfl
  simpa [Config.default, I2cAddr.toU8] using h

theorem blocking_init_allOk (cfg : Config) :
    blocking_init allOk cfg [] =
      (.ok ⟨cfg⟩, [⟨cfg.i2c_addr.toU8, [0x02, cfg.mode.toU8], true⟩]) := by
  simp [blocking_init, Ds3502.new, set_mode, i2cWrite, allOk]

theorem async_write_wiper_driver (oracle : Oracle) (d : Ds3502) (w : Wiper)
    (log : List Txn) : (async_write_wiper oracle d w log).2.1 = d := by
  cases ho : oracle log d.config.i2c_addr.toU8 [0x00, w.val] with
  | none => simp [async_write_wiper_oracle_none ho]
  | some k => simp [async_write_wiper_oracle_some ho]

theorem async_write_and_save_driver (oracle : Oracle) (d : Ds3502) (w : Wiper)
    (log : List Txn) : (async_write_and_save_wiper oracle d w log).2.1 = d := by
  cases h1 : oracle log d.config.i2c_addr.toU8 [0x02, 0x00] with
  | some k =>
    simp [async_write_and_save_wiper, async_set_mode, i2cWrite,
      ControlRegisterMode.toU8, h1]
  | none =>
    cases h2 : oracle (log ++ [⟨d.config.i2c_addr.toU8, [0x02, 0x00], true⟩])
        d.config.i2c_addr.toU8 [0x00, w.val] with
    | some k =>
      simp [async_write_and_save_wiper, async_set_mode, async_write_wiper,
        i2cWrite, ControlRegisterMode.toU8, h1, h2]
    | none =>
      cases h3 : oracle
          (log ++ [⟨d.config.i2c_addr.toU8, [0x02, 0x00], true⟩,
                   ⟨d.config.i2c_addr.toU8, [0x00, w.val], true⟩])
          d.config.i2c_addr.toU8 [0x02, 0x80] with
      | some k =>
        simp [async_write_and_save_wiper, async_set_mode, async_write_wiper,
          i2cWrite, ControlRegisterMode.toU8, h1, h2, h3]
      | none =>
        simp [async_write_and_save_wiper, async_set_mode, async_write_wiper,
          i2cWrite, ControlRegisterMode.toU8, h1, h2, h3]

theorem runAsyncOps_driver_eq (oracle : Oracle) (ops : List Op) :
    ∀ (d : Ds3502) (log : List Txn), (runAsyncOps oracle d log ops).1 = d := by
  induction ops with
  | nil => intro d log; rfl
  | cons op ops ih =>
    intro d log
    cases op with
    | writeWiper w =>
      calc (runAsyncOps oracle d log (.writeWiper w :: ops)).1
          = (runAsyncOps oracle (async_write_wiper oracle d w log).2.1
              (async_write_wiper oracle d w log).2.2 ops).1 := rfl
        _ = d := by rw [async_write_wiper_driver]; exact ih _ _
    | writeAndSave w =>
      calc (runAsyncOps oracle d log (.writeAndSave w :: ops)).1
          = (runAsyncOps oracle (async_write_and_save_wiper oracle d w log).2.1
              (async_write_and_save_wiper oracle d w log).2.2 ops).1 := rfl
        _ = d := by rw [async_write_and_save_driver]; exact ih _ _

theorem deviceMode_append (po : ControlRegisterMode) (l1 l2 : List Txn) :
    deviceMode po (l1 ++ l2) = deviceMode (deviceMode po l1) l2 := by
  simp [deviceMode, List.foldl_append]

theorem runOps_allOk_mode_inv (ops : List Op) :
    ∀ (d : Ds3502) (log : List Txn) (po : ControlRegisterMode),
      deviceMode po log = d.mode →
      deviceMode po (runOps allOk d log ops).2 =
        ((runOps allOk d log ops).1).mode := by
  induction ops with
  | nil => intro d log po h; exact h
  | cons op ops ih =>
    intro d log po h
    cases op with
    | writeWiper w =>
      have e : write_wiper allOk d w log =
          (.ok (), d, log ++ [⟨d.config.i2c_addr.toU8, [0x00, w.val], true⟩]) :=
        write_wiper_oracle_none rfl
      have e2 : runOps allOk d log (.writeWiper w :: ops) =
          runOps allOk d
            (log ++ [⟨d.config.i2c_addr.toU8, [0x00, w.val], true⟩]) ops := by
        show runOps allOk (write_wiper allOk d w log).2.1
          (write_wiper allOk d w log).2.2 ops = _
        rw [e]
      rw [e2]
      apply ih
      rw [deviceMode_append, h]
      simp [deviceMode, applyTxn, modeOfPayload]
    | writeAndSave w =>
      have e : write_and_save_wiper allOk d w log =
          (.ok (), ⟨⟨d.config.i2c_addr, .WiperOnly⟩⟩,
           log ++ [⟨d.config.i2c_addr.toU8, [0x02, 0x00], true⟩,
                   ⟨d.config.i2c_addr.toU8, [0x00, w.val], true⟩,
                   ⟨d.config.i2c_addr.toU8, [0x02, 0x80], true⟩]) :=
        write_and_save_all_ok rfl rfl rfl
      have e2 : runOps allOk d log (.writeAndSave w :: ops) =
          runOps allOk ⟨⟨d.config.i2c_addr, .WiperOnly⟩⟩
            (log ++ [⟨d.config.i2c_addr.toU8, [0x02, 0x00], true⟩,
                     ⟨d.config.i2c_addr.toU8, [0x00, w.val], true⟩,
                     ⟨d.config.i2c_addr.toU8, [0x02, 0x80], true⟩]) ops := by
        show runOps allOk (write_and_save_wiper allOk d w log).2.1
          (write_and_save_wiper allOk d w log).2.2 ops = _
        rw [e]
      rw [e2]
      apply ih
      rw [deviceMode_append]
      simp [deviceMode, applyTxn, modeOfPayload, Ds3502.mode]

/-- C3: on a transport where every write succeeds, the blocking and async
drivers run through the same operation sequence (default init, then
`write_wiper(88)`, then `write_and_save_wiper(23)`) produce byte-identical
bus transaction sequences — the same five writes, to the same address, in
the same order — and both runs succeed. -/
theorem blocking_async_same_transactions (oracle : Oracle)
    (h : ∀ (log : List Txn) (addr : Nat) (bytes : List Nat),
      oracle log addr bytes = none) :
    run_blocking oracle = run_async oracle ∧
    (run_blocking oracle).1 = .ok () ∧
    (run_blocking oracle).2 =
      [⟨0x28, [0x02, 0x80], true⟩, ⟨0x28, [0x00, 88], true⟩,
       ⟨0x28, [0x02, 0x00], true⟩, ⟨0x28, [0x00, 23], true⟩,
       ⟨0x28, [0x02, 0x80], true⟩] := by
  have he : oracle = allOk := by
    funext l a b
    exact h l a b
  subst he
  exact ⟨rfl, rfl, rfl⟩

/-- Witness for C3 on the canonical all-success transport. -/
theorem blocking_async_same_transactions_witness :
    run_blocking allOk = run_async allOk :=
  (blocking_async_same_transactions allOk (fun _ _ _ => rfl)).1

/-- C9: in the async driver, no operation ever updates the cached
persistence-mode field — after `async_init` and any sequence of async
operations under any transport behaviour (any success/failure outcomes),
the driver value is unchanged and `mode()` returns exactly the mode
supplied in the initial `Config`. -/
theorem async_mode_constant (oracle : Oracle) (cfg : Config) (ops : List Op)
    (d : Ds3502) (log1 : List Txn)
    (hinit : async_init oracle cfg [] = (.ok d, log1)) :
    (runAsyncOps oracle d log1 ops).1 = d ∧
    (runAsyncOps oracle d log1 ops).1.mode = cfg.mode := by
  have hd := async_init_ok_driver hinit
  subst hd
  refine ⟨runAsyncOps_driver_eq oracle ops _ _, ?_⟩
  rw [runAsyncOps_driver_eq]
  rfl

/-- Witness for C9: a transport failing the third write, with
`write_wiper(88)` then `write_and_save_wiper(23)` after default init. -/
theorem async_mode_constant_witness :
    (runAsyncOps (failNth 2 4) ⟨Config.default⟩
      [⟨0x28, [0x02, 0x80], true⟩]
      [.writeWiper ⟨88⟩, .writeAndSave ⟨23⟩]).1.mode = Config.default.mode :=
  (async_mode_constant (failNth 2 4) Config.default
    [.writeWiper ⟨88⟩, .writeAndSave ⟨23⟩] ⟨Config.default⟩
    [⟨0x28, [0x02, 0x80], true⟩] rfl).2

/-- C10: the blocking `set_mode` mutates the cached mode field before
attempting the bus write, so the cached state changes even when the
operation errors: after `write_and_save_wiper` fails at its first write the
call returns the wrapped transport failure and `mode()` reports
`WiperAndInitialValue`; after it fails at its third write it returns the
failure and `mode()` reports `WiperOnly`, although the restore write never
succeeded. -/
theorem set_mode_caches_before_write (oracle : Oracle) (d : Ds3502)
    (w : Wiper) (log : List Txn) :
    (∀ m, (set_mode oracle d m log).2.1.mode = m) ∧
    (∀ k, oracle log d.config.i2c_addr.toU8 [0x02, 0x00] = some k →
      (write_and_save_wiper oracle d w log).1 = .error (.I2cError k) ∧
      (write_and_save_wiper oracle d w log).2.1.mode = .WiperAndInitialValue) ∧
    (∀ k, oracle log d.config.i2c_addr.toU8 [0x02, 0x00] = none →
      oracle (log ++ [⟨d.config.i2c_addr.toU8, [0x02, 0x00], true⟩])
        d.config.i2c_addr.toU8 [0x00, w.val] = none →
      oracle (log ++ [⟨d.config.i2c_addr.toU8, [0x02, 0x00], true⟩,
                      ⟨d.config.i2c_addr.toU8, [0x00, w.val], true⟩])
        d.config.i2c_addr.toU8 [0x02, 0x80] = some k →
      (write_and_save_wiper oracle d w log).1 = .error (.I2cError k) ∧
      (write_and_save_wiper oracle d w log).2.1.mode = .WiperOnly) := by
  refine ⟨?_, ?_, ?_⟩
  · intro m
    cases ho : oracle log d.config.i2c_addr.toU8 [0x02, m.toU8] with
    | none => simp [set_mode_oracle_none ho, Ds3502.mode]
    | some k => simp [set_mode_oracle_some ho, Ds3502.mode]
  · intro k h1
    rw [write_and_save_fail1 h1]
    exact ⟨rfl, rfl⟩
  · intro k h1 h2 h3
    rw [write_and_save_fail3 h1 h2 h3]
    exact ⟨rfl, rfl⟩

/-- Witness for C10 on the default-config driver with wiper 23: cached mode
after a plain `set_mode`, after a first-write failure, and after a
third-write failure. -/
theorem set_mode_caches_before_write_witness :
    (set_mode allOk ⟨Config.default⟩ .WiperAndInitialValue []).2.1.mode =
      .WiperAndInitialValue ∧
    (write_and_save_wiper (failNth 0 2) ⟨Config.default⟩ ⟨23⟩ []).2.1.mode =
      .WiperAndInitialValue ∧
    (write_and_save_wiper (failNth 2 6) ⟨Config.default⟩ ⟨23⟩ []).2.1.mode =
      .WiperOnly :=
  ⟨(set_mode_caches_before_write allOk ⟨Config.default⟩ ⟨23⟩ []).1
     .WiperAndInitialValue,
   ((set_mode_caches_before_write (failNth 0 2) ⟨Config.default⟩ ⟨23⟩
       []).2.1 2 rfl).2,
   ((set_mode_caches_before_write (failNth 2 6) ⟨Config.default⟩ ⟨23⟩
       []).2.2 6 rfl rfl rfl).2⟩

/-- C5 (refuted by the code, evaluated at the failing input): on the async
driver with the default config, when `async_write_and_save_wiper(23)` fails
at its second write the latest mode-set step it issued commanded
`WiperAndInitialValue`, yet `mode()` still returns the initial config mode
`WiperOnly` — `async_set_mode` never stores the mode it writes. -/
theorem async_mode_cache_stale_at_failing_input :
    lastCommandedMode
        (async_write_and_save_wiper (failNth 2 5) ⟨Config.default⟩ ⟨23⟩
          [⟨0x28, [0x02, 0x80], true⟩]).2.2 = some .WiperAndInitialValue ∧
    (async_write_and_save_wiper (failNth 2 5) ⟨Config.default⟩ ⟨23⟩
        [⟨0x28, [0x02, 0x80], true⟩]).2.1.mode = .WiperOnly ∧
    ControlRegisterMode.WiperOnly ≠ ControlRegisterMode.WiperAndInitialValue := by
  refine ⟨rfl, rfl, ?_⟩
  decide

/-- C4: counterexample to the claim as stated. First input: the blocking
driver after default init, with `write_and_save_wiper(23)` failing at its
first write — the device (whose last successful `[0x02, m]` write was the
init's `[0x02, 0x80]`) is in `WiperOnly` while `mode()` reports
`WiperAndInitialValue`. Second input: the async driver initialized with
mode `WiperAndInitialValue` on a transport where every write succeeds,
after a fully successful `async_write_and_save_wiper(23)` — the device ends
in `WiperOnly` while `mode()` still reports `WiperAndInitialValue`. -/
theorem device_mode_invariant_counterexample :
    deviceMode .WiperAndInitialValue
        (write_and_save_wiper (failNth 1 9) ⟨Config.default⟩ ⟨23⟩
          [⟨0x28, [0x02, 0x80], true⟩]).2.2 = .WiperOnly ∧
    (write_and_save_wiper (failNth 1 9) ⟨Config.default⟩ ⟨23⟩
        [⟨0x28, [0x02, 0x80], true⟩]).2.1.mode = .WiperAndInitialValue ∧
    deviceMode .WiperAndInitialValue
        (async_write_and_save_wiper allOk
          ⟨⟨.Default, .WiperAndInitialValue⟩⟩ ⟨23⟩
          [⟨0x28, [0x02, 0x00], true⟩]).2.2 = .WiperOnly ∧
    (async_write_and_save_wiper allOk
        ⟨⟨.Default, .WiperAndInitialValue⟩⟩ ⟨23⟩
        [⟨0x28, [0x02, 0x00], true⟩]).2.1.mode = .WiperAndInitialValue ∧
    ControlRegisterMode.WiperOnly ≠ ControlRegisterMode.WiperAndInitialValue := by
  refine ⟨rfl, rfl, rfl, rfl, ?_⟩
  decide

/-- C4 (amended): for the blocking driver on a transport where every write
succeeds, after initialization and after every completed operation the
device's actual persistence mode — the mode established by the most recent
successful `[0x02, m]` bus write, starting from any power-on mode — equals
the mode the driver last set, i.e. the value `mode()` reports. -/
theorem device_mode_matches_cached_blocking (cfg : Config) (ops : List Op)
    (po : ControlRegisterMode) (d : Ds3502) (log1 : List Txn)
    (hinit : blocking_init allOk cfg [] = (.ok d, log1)) :
    deviceMode po (runOps allOk d log1 ops).2 =
      ((runOps allOk d log1 ops).1).mode := by
  have h1 := hinit.symm.trans (blocking_init_allOk cfg)
  simp only [Prod.mk.injEq, Except.ok.injEq] at h1
  obtain ⟨hd, hl⟩ := h1
  subst hd
  subst hl
  apply runOps_allOk_mode_inv
  cases hm : cfg.mode <;>
    simp [deviceMode, applyTxn, modeOfPayload, ControlRegisterMode.toU8,
      Ds3502.mode, hm]

/-- Witness for C4 (amended): default config, `write_wiper(88)` then
`write_and_save_wiper(23)`, power-on mode `WiperAndInitialValue`. -/
theorem device_mode_matches_cached_blocking_witness :
    deviceMode .WiperAndInitialValue
      (runOps allOk ⟨Config.default⟩ [⟨0x28, [0x02, 0x80], true⟩]
        [.writeWiper ⟨88⟩, .writeAndSave ⟨23⟩]).2 =
    ((runOps allOk ⟨Config.default⟩ [⟨0x28, [0x02, 0x80], true⟩]
        [.writeWiper ⟨88⟩, .writeAndSave ⟨23⟩]).1).mode :=
  device_mode_matches_cached_blocking Config.default
    [.writeWiper ⟨88⟩, .writeAndSave ⟨23⟩] .WiperAndInitialValue
    ⟨Config.default⟩ [⟨0x28, [0x02, 0x80], true⟩] rfl

end DS3502
